import Mathlib

/-!
Verification of the functional core of `social.py` (social media post
generator).

Modelling choices (shallow embedding):
* Python strings are `List Char`; string literals enter via `String.toList`.
* The two ML oracles are opaque functions: `gen` models the expression
  `caption_generator(prompt, ...)[0]["generated_text"]` and `classify`
  models `sentiment_pipeline(text)[0]["label"]`; an `Except.error ()`
  result models the call raising any exception.
* `random.sample(population, k)` is an oracle `s : List α → Nat →
  Option (List α)`; the predicate `SamplerOK` says a `some` result is a
  length-`k` selection of distinct positions of the population (a
  permutation of a sublist), and `none` — modelling the `ValueError`
  Python raises — occurs exactly when `k` exceeds the population size.
* A `none` result of `get_hashtags` models an uncaught exception escaping
  it (the `KeyError` of an unmapped platform, or `ValueError` from
  `random.sample`), which the `try/except` of `generate_post` then
  catches.
-/

/-- Python `str.lower()`, character-wise (ASCII case folding, which agrees
with Python on the ASCII labels and topics used here); embeds
`prompt.lower()` and `label.lower()`. -/
def pyLower (s : List Char) : List Char := s.map Char.toLower

/-- Accumulator worker for `pySplit`: walks the string, `acc` holding the
current word reversed; whitespace finishes the current word, everything
else extends it. -/
def splitAux : List Char → List Char → List (List Char)
  | [], acc => if acc = [] then [] else [acc.reverse]
  | c :: cs, acc =>
    if c.isWhitespace then
      if acc = [] then splitAux cs [] else acc.reverse :: splitAux cs []
    else
      splitAux cs (c :: acc)

/-- Python `str.split()` with no argument: split on runs of whitespace,
dropping empty pieces; embeds `prompt.lower().split()`. -/
def pySplit (s : List Char) : List (List Char) := splitAux s []

/-- Python `str.strip()`: drop leading and trailing whitespace; embeds
`prompt.strip()` and `caption.strip()`. -/
def pyStrip (s : List Char) : List Char :=
  ((s.dropWhile Char.isWhitespace).reverse.dropWhile Char.isWhitespace).reverse

/-- Python `word.replace(" ", "")`: the pattern is the single space
character, so the replacement removes every space. -/
def removeSpaces (s : List Char) : List Char := s.filter (fun c => c ≠ ' ')

/-- First-match association-list lookup, the model of a Python dict
lookup (`d.get(k, default)` composes it with `Option.getD`). -/
def dictGet {β : Type} : List (List Char × β) → List Char → Option β
  | [], _ => none
  | (k, v) :: rest, key => if key = k then some v else dictGet rest key

/-- The table `emoji_dict` of social.py, mapping sentiment labels to
emoji lists. -/
def emoji_dict : List (List Char × List Char) :=
  [("positive".toList, ['😊', '🌟', '🔥', '💪', '🚀', '✨']),
   ("negative".toList, ['😢', '😞', '💔', '😠', '😓']),
   ("neutral".toList, ['🙂', '😐', '🧐', '🤔', '😶'])]

/-- Correctness of a model of `random.sample(population, k)`: a `some`
result is a length-`k` permutation of a sublist of the population
(distinct positions, arbitrary order), and `none` — the `ValueError`
branch — occurs exactly when `k` exceeds the population length. -/
def SamplerOK {α : Type} (s : List α → Nat → Option (List α)) : Prop :=
  ∀ pop k, match s pop k with
    | some res => res.length = k ∧ List.Subperm res pop
    | none => pop.length < k

/-- A concrete sampler taking the first `k` elements; used to evaluate the
oracle-parameterised functions on concrete inputs. -/
def takeSampler {α : Type} (pop : List α) (k : Nat) : Option (List α) :=
  if k ≤ pop.length then some (pop.take k) else none

/-- A concrete sampler taking the last `k` elements. -/
def lastSampler {α : Type} (pop : List α) (k : Nat) : Option (List α) :=
  if k ≤ pop.length then some (pop.drop (pop.length - k)) else none

/-- The candidate emoji list of `get_emojis`: the expression
`emoji_dict.get(label, ["😐"])`. -/
def candidateList (label : List Char) : List Char :=
  (dictGet emoji_dict label).getD ['😐']

/-- `get_emojis` of social.py. The `try` block covers both the sentiment
call and `random.sample(..., 3)` (which raises when the candidate list
has fewer than 3 elements); either failure yields the fixed fallback
`"😊😊😊"`. The Python return value `''.join(sample)` is the sampled
character list itself. -/
def get_emojis (s : List Char → Nat → Option (List Char))
    (classify : List Char → Except Unit (List Char)) (text : List Char) :
    List Char :=
  match classify text with
  | .error _ => ['😊', '😊', '😊']
  | .ok label =>
    match s (candidateList (pyLower label)) 3 with
    | some es => es
    | none => ['😊', '😊', '😊']

/-- The local dict `platform_tags` of `get_hashtags`; `none` models a key
absent from the dict, on which Python raises `KeyError`. -/
def platform_tags (platform : List Char) : Option (List (List Char)) :=
  if platform = "Instagram".toList then
    some ["#instadaily".toList, "#igers".toList, "#picoftheday".toList,
          "#instagood".toList, "#photooftheday".toList]
  else if platform = "LinkedIn".toList then
    some ["#career".toList, "#leadership".toList, "#networking".toList,
          "#business".toList, "#success".toList]
  else if platform = "Twitter".toList then
    some ["#tweet".toList, "#trending".toList, "#news".toList,
          "#viral".toList, "#twitter".toList]
  else none

/-- `get_hashtags` of social.py: content tags are the words of the
lower-cased prompt longer than 3 characters, space-stripped and prefixed
with `'#'`, truncated to the first 5; then 2 sampled platform tags are
appended and everything is joined with single spaces. `none` models an
uncaught exception (`KeyError` for an unmapped platform, `ValueError`
from `random.sample`). -/
def get_hashtags (s : List (List Char) → Nat → Option (List (List Char)))
    (prompt platform : List Char) : Option (List Char) :=
  let words := pySplit (pyLower prompt)
  let tags := (words.filter (fun w => 3 < w.length)).map
    (fun w => '#' :: removeSpaces w)
  match platform_tags platform with
  | none => none
  | some pts =>
    match s pts 2 with
    | none => none
    | some ps => some (List.intercalate [' '] (tags.take 5 ++ ps))

/-- The validation message of `generate_post`. -/
def promptMsg : List Char := "Please enter a keyword or theme".toList

/-- The generic failure message of `generate_post`. -/
def errMsg : List Char :=
  "An error occurred while generating the post. Please try again.".toList

/-- `generate_post` of social.py. The whitespace guard is
`if not prompt.strip()`. The `try` block covers the GPT-2 call, the
`get_emojis` call (which itself never raises) and the `get_hashtags`
call, so both a failing generation and an exception escaping
`get_hashtags` end in the generic error tuple. -/
def generate_post (sC : List Char → Nat → Option (List Char))
    (sH : List (List Char) → Nat → Option (List (List Char)))
    (gen : List Char → Except Unit (List Char))
    (classify : List Char → Except Unit (List Char))
    (prompt platform : List Char) : List Char × List Char × List Char :=
  if pyStrip prompt = [] then (promptMsg, [], [])
  else
    match gen prompt with
    | .error _ => (errMsg, [], [])
    | .ok caption =>
      let emojis := get_emojis sC classify caption
      match get_hashtags sH prompt platform with
      | none => (errMsg, [], [])
      | some hashtags => (pyStrip caption, emojis, hashtags)

/-- The hashtag composer's content tags as §4.3 of the spec words them:
lower-case the topic, split on whitespace, keep exactly the tokens longer
than 3 characters prefixed with `'#'` in original word order, truncate to
the first 5. Stated for comparison with `get_hashtags` (which also runs
`replace(" ", "")` on each token — a no-op on whitespace-split tokens). -/
def specContentTags (topic : List Char) : List (List Char) :=
  ((((pySplit (pyLower topic)).filter (fun w => 3 < w.length)).map
    (fun w => '#' :: w)).take 5)

theorem takeSampler_ok {α : Type} : SamplerOK (takeSampler (α := α)) := by
  intro pop k
  by_cases h : k ≤ pop.length
  · simp only [takeSampler, if_pos h]
    exact ⟨by simp [List.length_take, Nat.min_eq_left h],
      (List.take_sublist k pop).subperm⟩
  · simp only [takeSampler, if_neg h]
    exact Nat.lt_of_not_le h

theorem lastSampler_ok {α : Type} : SamplerOK (lastSampler (α := α)) := by
  intro pop k
  by_cases h : k ≤ pop.length
  · simp only [lastSampler, if_pos h]
    exact ⟨by simp [Nat.sub_sub_self h], (List.drop_sublist _ pop).subperm⟩
  · simp only [lastSampler, if_neg h]
    exact Nat.lt_of_not_le h

theorem subperm_nodup {α : Type} {l₁ l₂ : List α}
    (h : List.Subperm l₁ l₂) (h₂ : l₂.Nodup) : l₁.Nodup := by
  obtain ⟨l, hperm, hsub⟩ := h
  exact hperm.nodup (hsub.nodup h₂)

theorem splitAux_no_ws (s : List Char) : ∀ (acc : List Char),
    (∀ c ∈ acc, c.isWhitespace = false) →
    ∀ w ∈ splitAux s acc, ∀ c ∈ w, c.isWhitespace = false := by
  induction s with
  | nil =>
    intro acc hacc w hw c hc
    simp only [splitAux] at hw
    split at hw
    · simp at hw
    · simp only [List.mem_singleton] at hw
      subst hw
      exact hacc c (List.mem_reverse.mp hc)
  | cons a as ih =>
    intro acc hacc w hw c hc
    simp only [splitAux] at hw
    split at hw
    · split at hw
      · exact ih [] (by simp) w hw c hc
      · rcases List.mem_cons.mp hw with h | h
        · subst h
          exact hacc c (List.mem_reverse.mp hc)
        · exact ih [] (by simp) w h c hc
    · refine ih (a :: acc) ?_ w hw c hc
      intro d hd
      rcases List.mem_cons.mp hd with h | h
      · subst h
        rename_i hws
        simpa using hws
      · exact hacc d h

theorem pySplit_no_ws {s w : List Char} (hw : w ∈ pySplit s) :
    ∀ c ∈ w, c.isWhitespace = false :=
  splitAux_no_ws s [] (by simp) w hw

theorem removeSpaces_of_split {s w : List Char} (hw : w ∈ pySplit s) :
    removeSpaces w = w := by
  apply List.filter_eq_self.mpr
  intro c hc
  have := pySplit_no_ws hw c hc
  simp only [decide_eq_true_eq]
  intro he
  subst he
  simp at this

theorem platform_tags_props {platform : List Char} {pts : List (List Char)}
    (h : platform_tags platform = some pts) : pts.length = 5 ∧ pts.Nodup := by
  unfold platform_tags at h
  split at h
  · cases h; decide
  · split at h
    · cases h; decide
    · split at h
      · cases h; decide
      · cases h

theorem emoji_dict_props {k lst : List Char}
    (h : dictGet emoji_dict k = some lst) : 3 ≤ lst.length ∧ lst.Nodup := by
  simp only [emoji_dict, dictGet] at h
  split at h
  · cases h; decide
  · split at h
    · cases h; decide
    · split at h
      · cases h; decide
      · cases h

theorem get_hashtags_eq {s : List (List Char) → Nat → Option (List (List Char))}
    (hs : SamplerOK s) (prompt platform : List Char) (pts : List (List Char))
    (hp : platform_tags platform = some pts) :
    ∃ ps, ps.length = 2 ∧ ps.Nodup ∧ List.Subperm ps pts ∧
      get_hashtags s prompt platform =
        some (List.intercalate [' '] (specContentTags prompt ++ ps)) := by
  obtain ⟨hlen5, hnd⟩ := platform_tags_props hp
  have h2 := hs pts 2
  cases hsp : s pts 2 with
  | none =>
    rw [hsp] at h2
    omega
  | some ps =>
    rw [hsp] at h2
    obtain ⟨hlen, hsub⟩ := h2
    refine ⟨ps, hlen, subperm_nodup hsub hnd, hsub, ?_⟩
    simp only [get_hashtags, hp, hsp]
    have hmap : ((pySplit (pyLower prompt)).filter (fun w => 3 < w.length)).map
        (fun w => '#' :: removeSpaces w) =
        ((pySplit (pyLower prompt)).filter (fun w => 3 < w.length)).map
        (fun w => '#' :: w) := by
      apply List.map_congr_left
      intro w hw
      rw [removeSpaces_of_split (List.mem_filter.mp hw).1]
    rw [hmap]
    rfl

theorem get_emojis_ok {s : List Char → Nat → Option (List Char)}
    (hs : SamplerOK s) (classify : List Char → Except Unit (List Char))
    (text label lst : List Char) (hc : classify text = Except.ok label)
    (hl : dictGet emoji_dict (pyLower label) = some lst) :
    ∃ es, es.length = 3 ∧ es.Nodup ∧ List.Subperm es lst ∧
      get_emojis s classify text = es := by
  obtain ⟨hlen3, hnd⟩ := emoji_dict_props hl
  have hcand : candidateList (pyLower label) = lst := by
    unfold candidateList
    rw [hl]
    rfl
  have h3 := hs lst 3
  cases hsp : s lst 3 with
  | none =>
    rw [hsp] at h3
    omega
  | some es =>
    rw [hsp] at h3
    obtain ⟨hlen, hsub⟩ := h3
    refine ⟨es, hlen, subperm_nodup hsub hnd, hsub, ?_⟩
    simp only [get_emojis, hc, hcand, hsp]

/-- C1: for every topic that strips to empty, `generate_post` returns the
fixed tuple ("Please enter a keyword or theme", "", "") for any platform
and independently of the generation, classification and sampling oracles
(they are universally quantified, so none of them is consulted). -/
theorem c1_whitespace_topic_fixed_tuple
    (sC : List Char → Nat → Option (List Char))
    (sH : List (List Char) → Nat → Option (List (List Char)))
    (gen classify : List Char → Except Unit (List Char))
    (prompt platform : List Char) (h : pyStrip prompt = []) :
    generate_post sC sH gen classify prompt platform = (promptMsg, [], []) := by
  unfold generate_post
  rw [if_pos h]

/-- Witness for C1 at the whitespace-only topic "   " with concrete
oracles and platform "Instagram". -/
theorem c1_witness :
    pyStrip ("   ".toList) = [] ∧
    generate_post takeSampler takeSampler (fun p => Except.ok p)
      (fun _ => Except.ok ("POSITIVE".toList)) ("   ".toList)
      ("Instagram".toList) = (promptMsg, [], []) :=
  ⟨by decide, c1_whitespace_topic_fixed_tuple _ _ _ _ _ _ (by decide)⟩

/-- C2: for every non-whitespace topic, if the text-generation call
errors then `generate_post` returns the generic failure message with
empty emoji and hashtag fields, independently of the classification and
sampling oracles. -/
theorem c2_generation_failure_tuple
    (sC : List Char → Nat → Option (List Char))
    (sH : List (List Char) → Nat → Option (List (List Char)))
    (gen classify : List Char → Except Unit (List Char))
    (prompt platform : List Char) (hp : pyStrip prompt ≠ [])
    (hg : gen prompt = Except.error ()) :
    generate_post sC sH gen classify prompt platform = (errMsg, [], []) := by
  unfold generate_post
  rw [if_neg hp, hg]

/-- Witness for C2 at topic "coffee" with an always-failing generator. -/
theorem c2_witness :
    pyStrip ("coffee".toList) ≠ [] ∧
    generate_post takeSampler takeSampler (fun _ => Except.error ())
      (fun _ => Except.ok ("POSITIVE".toList)) ("coffee".toList)
      ("Twitter".toList) = (errMsg, [], []) :=
  ⟨by decide, c2_generation_failure_tuple _ _ _ _ _ _ (by decide) rfl⟩

/-- C3: for every topic and every platform in the table, `get_hashtags`
returns the spec-described content tags (lower-cased whitespace tokens
longer than 3 characters, '#'-prefixed, original order, first 5) followed
by 2 distinct platform tags sampled without replacement from that
platform's fixed list, all joined by single spaces. -/
theorem c3_hashtag_contract
    {s : List (List Char) → Nat → Option (List (List Char))}
    (hs : SamplerOK s) (prompt platform : List Char)
    (pts : List (List Char)) (hp : platform_tags platform = some pts) :
    ∃ ps, ps.length = 2 ∧ ps.Nodup ∧ (∀ t ∈ ps, t ∈ pts) ∧
      get_hashtags s prompt platform =
        some (List.intercalate [' '] (specContentTags prompt ++ ps)) := by
  obtain ⟨ps, h1, h2, h3, h4⟩ := get_hashtags_eq hs prompt platform pts hp
  exact ⟨ps, h1, h2, fun t ht => h3.subset ht, h4⟩

/-- Witness for C3 at topic "Remote work tips" and platform "LinkedIn"
with the first-k sampler. -/
theorem c3_witness :
    ∃ ps, ps.length = 2 ∧ ps.Nodup ∧
      (∀ t ∈ ps, t ∈ ["#career".toList, "#leadership".toList,
        "#networking".toList, "#business".toList, "#success".toList]) ∧
      get_hashtags takeSampler ("Remote work tips".toList)
        ("LinkedIn".toList) =
        some (List.intercalate [' ']
          (specContentTags ("Remote work tips".toList) ++ ps)) :=
  c3_hashtag_contract takeSampler_ok ("Remote work tips".toList)
    ("LinkedIn".toList)
    ["#career".toList, "#leadership".toList, "#networking".toList,
     "#business".toList, "#success".toList] (by decide)

/-- C4: for topic "Morning coffee and productivity" and platform
"Instagram", the output is exactly "#morning", "#coffee",
"#productivity" in that order ("#and" excluded, length ≤ 3) followed by
2 distinct tags from Instagram's fixed list. -/
theorem c4_instagram_example
    {s : List (List Char) → Nat → Option (List (List Char))}
    (hs : SamplerOK s) :
    ∃ ps, ps.length = 2 ∧ ps.Nodup ∧
      (∀ t ∈ ps, t ∈ ["#instadaily".toList, "#igers".toList,
        "#picoftheday".toList, "#instagood".toList,
        "#photooftheday".toList]) ∧
      get_hashtags s ("Morning coffee and productivity".toList)
        ("Instagram".toList) =
        some (List.intercalate [' ']
          (["#morning".toList, "#coffee".toList, "#productivity".toList]
            ++ ps)) := by
  obtain ⟨ps, h1, h2, h3, h4⟩ := get_hashtags_eq hs
    ("Morning coffee and productivity".toList) ("Instagram".toList)
    ["#instadaily".toList, "#igers".toList, "#picoftheday".toList,
     "#instagood".toList, "#photooftheday".toList] (by decide)
  refine ⟨ps, h1, h2, fun t ht => h3.subset ht, ?_⟩
  rw [h4]
  have hsc : specContentTags ("Morning coffee and productivity".toList) =
      ["#morning".toList, "#coffee".toList, "#productivity".toList] := by
    decide
  rw [hsc]

/-- Witness for C4 with the first-k sampler. -/
theorem c4_witness :
    ∃ ps, ps.length = 2 ∧ ps.Nodup ∧
      (∀ t ∈ ps, t ∈ ["#instadaily".toList, "#igers".toList,
        "#picoftheday".toList, "#instagood".toList,
        "#photooftheday".toList]) ∧
      get_hashtags takeSampler ("Morning coffee and productivity".toList)
        ("Instagram".toList) =
        some (List.intercalate [' ']
          (["#morning".toList, "#coffee".toList, "#productivity".toList]
            ++ ps)) :=
  c4_instagram_example takeSampler_ok

/-- C5: whenever the classifier returns a label mapped in the emoji
table (after lower-casing), `get_emojis` returns the concatenation of 3
distinct emoji sampled without replacement from that label's list; in
particular for a label lowering to "positive" every returned emoji is in
the positive list. -/
theorem c5_mapped_label_emojis {s : List Char → Nat → Option (List Char)}
    (hs : SamplerOK s) (classify : List Char → Except Unit (List Char))
    (text label lst : List Char) (hc : classify text = Except.ok label)
    (hl : dictGet emoji_dict (pyLower label) = some lst) :
    ∃ es, es.length = 3 ∧ es.Nodup ∧ (∀ c ∈ es, c ∈ lst) ∧
      get_emojis s classify text = es ∧
      (pyLower label = "positive".toList →
        ∀ c ∈ es, c ∈ ['😊', '🌟', '🔥', '💪', '🚀', '✨']) := by
  obtain ⟨es, h1, h2, h3, h4⟩ := get_emojis_ok hs classify text label lst hc hl
  refine ⟨es, h1, h2, fun c hcm => h3.subset hcm, h4, ?_⟩
  intro hpos c hcm
  rw [hpos] at hl
  have hcomp : dictGet emoji_dict ("positive".toList) =
      some ['😊', '🌟', '🔥', '💪', '🚀', '✨'] := by decide
  rw [hcomp] at hl
  injection hl with h
  subst h
  exact h3.subset hcm

/-- Witness for C5 with a classifier fixed to "POSITIVE" and the first-k
sampler. -/
theorem c5_witness :
    ∃ es, es.length = 3 ∧ es.Nodup ∧
      (∀ c ∈ es, c ∈ ['😊', '🌟', '🔥', '💪', '🚀', '✨']) ∧
      get_emojis takeSampler (fun _ => Except.ok ("POSITIVE".toList))
        ("great day".toList) = es ∧
      (pyLower ("POSITIVE".toList) = "positive".toList →
        ∀ c ∈ es, c ∈ ['😊', '🌟', '🔥', '💪', '🚀', '✨']) :=
  c5_mapped_label_emojis takeSampler_ok
    (fun _ => Except.ok ("POSITIVE".toList)) ("great day".toList)
    ("POSITIVE".toList) ['😊', '🌟', '🔥', '💪', '🚀', '✨'] rfl (by decide)

/-- C6: when the classifier succeeds with a label absent from the emoji
table, the candidate list `get_emojis` passes to the sampler is the
single neutral glyph `["😐"]`, and the output is determined by sampling
from that singleton. -/
theorem c6_unmapped_label_neutral
    (s : List Char → Nat → Option (List Char))
    (classify : List Char → Except Unit (List Char)) (text label : List Char)
    (hc : classify text = Except.ok label)
    (hl : dictGet emoji_dict (pyLower label) = none) :
    candidateList (pyLower label) = ['😐'] ∧
    get_emojis s classify text =
      (match s ['😐'] 3 with
       | some es => es
       | none => ['😊', '😊', '😊']) := by
  have hcand : candidateList (pyLower label) = ['😐'] := by
    unfold candidateList
    rw [hl]
    rfl
  refine ⟨hcand, ?_⟩
  simp only [get_emojis, hc, hcand]

/-- Witness for C6 at the unmapped label "mixed". -/
theorem c6_witness :
    candidateList (pyLower ("mixed".toList)) = ['😐'] ∧
    get_emojis takeSampler (fun _ => Except.ok ("mixed".toList))
      ("some text".toList) =
      (match takeSampler ['😐'] 3 with
       | some es => es
       | none => ['😊', '😊', '😊']) :=
  c6_unmapped_label_neutral takeSampler
    (fun _ => Except.ok ("mixed".toList)) ("some text".toList)
    ("mixed".toList) rfl (by decide)

/-- C7: if the classification call errors, or it succeeds but the
candidate list has fewer than 3 elements, `get_emojis` swallows the
failure and returns exactly "😊😊😊"; moreover such a failure never
aborts the enclosing request: whenever generation succeeds, validation
passes and the platform is mapped, `generate_post` still returns the
normal success tuple carrying the fallback emoji string. -/
theorem c7_emoji_fallback {s : List Char → Nat → Option (List Char)}
    (hs : SamplerOK s) (classify : List Char → Except Unit (List Char))
    (text : List Char)
    (h : classify text = Except.error () ∨
      ∃ label, classify text = Except.ok label ∧
        (candidateList (pyLower label)).length < 3) :
    get_emojis s classify text = ['😊', '😊', '😊'] ∧
    ∀ (sH : List (List Char) → Nat → Option (List (List Char)))
      (gen : List Char → Except Unit (List Char))
      (prompt platform hts : List Char),
      pyStrip prompt ≠ [] → gen prompt = Except.ok text →
      get_hashtags sH prompt platform = some hts →
      generate_post s sH gen classify prompt platform =
        (pyStrip text, ['😊', '😊', '😊'], hts) := by
  have hmain : get_emojis s classify text = ['😊', '😊', '😊'] := by
    rcases h with he | ⟨label, hok, hlt⟩
    · simp only [get_emojis, he]
    · simp only [get_emojis, hok]
      cases hsp : s (candidateList (pyLower label)) 3 with
      | none => rfl
      | some es =>
        exfalso
        have h3 := hs (candidateList (pyLower label)) 3
        rw [hsp] at h3
        obtain ⟨hlen, hsub⟩ := h3
        have := hsub.length_le
        omega
  refine ⟨hmain, ?_⟩
  intro sH gen prompt platform hts hp hg hh
  simp only [generate_post, if_neg hp, hg, hh, hmain]

/-- Witness for C7 with an always-erroring classifier inside a full
successful request on topic "coffee" and platform "Twitter". -/
theorem c7_witness :
    get_emojis takeSampler (fun _ => Except.error ()) ("coffee".toList) =
      ['😊', '😊', '😊'] ∧
    ∀ (sH : List (List Char) → Nat → Option (List (List Char)))
      (gen : List Char → Except Unit (List Char))
      (prompt platform hts : List Char),
      pyStrip prompt ≠ [] → gen prompt = Except.ok ("coffee".toList) →
      get_hashtags sH prompt platform = some hts →
      generate_post takeSampler sH gen (fun _ => Except.error ())
        prompt platform =
        (pyStrip ("coffee".toList), ['😊', '😊', '😊'], hts) :=
  c7_emoji_fallback takeSampler_ok (fun _ => Except.error ())
    ("coffee".toList) (Or.inl rfl)

/-- C8 counterexample: the claim quantifies over every input text, but
when the classification call errors the output is the fixed "😊😊😊",
whose characters are not pairwise distinct, so "no repeated character
within a single response" fails. -/
theorem c8_counterexample :
    get_emojis takeSampler (fun _ => Except.error ()) ("hello".toList) =
      ['😊', '😊', '😊'] ∧
    ¬ (get_emojis takeSampler (fun _ => Except.error ())
      ("hello".toList)).Nodup := by
  constructor
  · decide
  · decide

/-- C8 amended: for every input text the output of `get_emojis` has
exactly 3 characters; and whenever the classifier succeeds with a label
mapped in the emoji table, those characters are drawn from that single
category's list with no repeats. -/
theorem c8_emoji_shape {s : List Char → Nat → Option (List Char)}
    (hs : SamplerOK s) (classify : List Char → Except Unit (List Char))
    (text : List Char) :
    (get_emojis s classify text).length = 3 ∧
    ∀ label lst, classify text = Except.ok label →
      dictGet emoji_dict (pyLower label) = some lst →
      (get_emojis s classify text).Nodup ∧
      ∀ c ∈ get_emojis s classify text, c ∈ lst := by
  constructor
  · cases hcl : classify text with
    | error e =>
      simp only [get_emojis, hcl]
      rfl
    | ok label =>
      cases hl : dictGet emoji_dict (pyLower label) with
      | some lst =>
        obtain ⟨es, h1, _, _, h4⟩ :=
          get_emojis_ok hs classify text label lst hcl hl
        rw [h4]
        exact h1
      | none =>
        have hcand : candidateList (pyLower label) = ['😐'] := by
          unfold candidateList
          rw [hl]
          rfl
        simp only [get_emojis, hcl, hcand]
        cases hsp : s ['😐'] 3 with
        | none => rfl
        | some es =>
          exfalso
          have h3 := hs ['😐'] 3
          rw [hsp] at h3
          obtain ⟨hlen, hsub⟩ := h3
          have := hsub.length_le
          simp at this
          omega
  · intro label lst hcl hl
    obtain ⟨es, h1, h2, h3, h4⟩ :=
      get_emojis_ok hs classify text label lst hcl hl
    rw [h4]
    exact ⟨h2, fun c hc => h3.subset hc⟩

/-- Witness for the amended C8 with a classifier fixed to "NEGATIVE" and
the first-k sampler. -/
theorem c8_witness :
    (get_emojis takeSampler (fun _ => Except.ok ("NEGATIVE".toList))
      ("sad day".toList)).length = 3 ∧
    ∀ label lst,
      (fun (_ : List Char) => Except.ok (ε := Unit) ("NEGATIVE".toList))
        ("sad day".toList) = Except.ok label →
      dictGet emoji_dict (pyLower label) = some lst →
      (get_emojis takeSampler (fun _ => Except.ok ("NEGATIVE".toList))
        ("sad day".toList)).Nodup ∧
      ∀ c ∈ get_emojis takeSampler (fun _ => Except.ok ("NEGATIVE".toList))
        ("sad day".toList), c ∈ lst :=
  c8_emoji_shape takeSampler_ok (fun _ => Except.ok ("NEGATIVE".toList))
    ("sad day".toList)

/-- C9 counterexample: the claim says an unmapped platform is "not
recovered into a user-facing recoverable result", but at the concrete
request (topic "coffee time", platform "Facebook", generation
succeeding) `generate_post`'s blanket except catches the missing-key
error of `get_hashtags` and returns the same user-facing generic error
tuple as a generation failure. -/
theorem c9_counterexample :
    platform_tags ("Facebook".toList) = none ∧
    generate_post takeSampler takeSampler (fun p => Except.ok p)
      (fun _ => Except.ok ("POSITIVE".toList)) ("coffee time".toList)
      ("Facebook".toList) = (errMsg, [], []) := by
  constructor
  · decide
  · decide

/-- C9 amended: for every platform absent from the table, the lookup
error propagates out of `get_hashtags` itself (modelled `none`, no
recovery inside the composer); the enclosing `generate_post`, however,
catches it and returns the same generic error tuple as a generation
failure whenever validation passes and generation succeeds. -/
theorem c9_unmapped_platform
    (sC : List Char → Nat → Option (List Char))
    (sH : List (List Char) → Nat → Option (List (List Char)))
    (gen classify : List Char → Except Unit (List Char))
    (prompt platform : List Char)
    (hp : platform_tags platform = none) :
    get_hashtags sH prompt platform = none ∧
    (pyStrip prompt ≠ [] → ∀ caption, gen prompt = Except.ok caption →
      generate_post sC sH gen classify prompt platform =
        (errMsg, [], [])) := by
  have hh : get_hashtags sH prompt platform = none := by
    simp only [get_hashtags, hp]
  refine ⟨hh, ?_⟩
  intro hne caption hg
  simp only [generate_post, if_neg hne, hg, hh]

/-- Witness for the amended C9 at platform "Facebook". -/
theorem c9_witness :
    get_hashtags takeSampler ("great coffee".toList) ("Facebook".toList) =
      none ∧
    (pyStrip ("great coffee".toList) ≠ [] → ∀ caption,
      (fun (p : List Char) => Except.ok (ε := Unit) p)
        ("great coffee".toList) = Except.ok caption →
      generate_post takeSampler takeSampler
        (fun p => Except.ok p) (fun _ => Except.ok ("POSITIVE".toList))
        ("great coffee".toList) ("Facebook".toList) = (errMsg, [], [])) :=
  c9_unmapped_platform takeSampler takeSampler (fun p => Except.ok p)
    (fun _ => Except.ok ("POSITIVE".toList)) ("great coffee".toList)
    ("Facebook".toList) (by decide)

/-- C10: `get_hashtags` deduplicates nothing beyond the sampler's
without-replacement guarantee on the 2 platform tags: a long word
repeated in the topic yields repeated content tags ("coffee coffee" on
Instagram), and a content tag can collide with a sampled platform tag
("i love twitter" on Twitter when the sampler picks "#twitter"); in both
cases the returned string contains a duplicated tag. -/
theorem c10_duplicate_tags :
    (get_hashtags takeSampler ("coffee coffee".toList)
        ("Instagram".toList) =
      some ("#coffee #coffee #instadaily #igers".toList) ∧
      ¬ (pySplit ("#coffee #coffee #instadaily #igers".toList)).Nodup) ∧
    SamplerOK (lastSampler (α := List Char)) ∧
    (get_hashtags lastSampler ("i love twitter".toList)
        ("Twitter".toList) =
      some ("#love #twitter #viral #twitter".toList) ∧
      ¬ (pySplit ("#love #twitter #viral #twitter".toList)).Nodup) :=
  ⟨⟨by decide, by decide⟩, lastSampler_ok, ⟨by decide, by decide⟩⟩
